import Mathlib

/-!
Shallow embedding of the document-approval workflow of the
`codespaces-flask` repository: the document lifecycle state machine
(`src/routes/main.py`), the workflow engine (`src/utils/__init__.py`),
the admin user-management guards (`src/routes/admin.py`) and the
reference-number generator (`src/utils/__init__.py`), together with
theorems settling the specification claims about them.
-/

namespace DocApproval

/-- Document lifecycle status; the `status` column of the six document
models in `src/models/__init__.py` (strings 'Draft', 'Submitted',
'Approved', 'Rejected'). -/
inductive Status
  | Draft
  | Submitted
  | Approved
  | Rejected
deriving DecidableEq, Repr

/-- The lifecycle-relevant columns shared by the six document models
(`NFA`, `WorkOrder`, ... in `src/models/__init__.py`). `department_id`
and `rejected_remarks` are nullable columns, hence `Option`. -/
structure Document where
  id : Nat
  reference_number : String
  title : String
  status : Status
  created_by_id : Nat
  department_id : Option Nat
  rejected_remarks : Option String
deriving DecidableEq, Repr

/-- A row of the `ApprovalHistory` model (`src/models/__init__.py`).
`doc_fk` records which of the six document foreign-key columns the row
was created with (e.g. `"nfa_id"`), `doc_id` its value. -/
structure HistoryRow where
  action : String
  approved_by_id : Nat
  comments : Option String
  doc_fk : String
  doc_id : Nat
deriving DecidableEq, Repr

/-- A user of the system (`User` model in `src/models/__init__.py`):
id, active flag, role names (via the `user_roles` association) and
nullable department. -/
structure AUser where
  id : Nat
  username : String
  is_active : Bool
  roles : List String
  department_id : Option Nat
deriving DecidableEq, Repr

/-- The persistent state surrounding one document: the document row, the
filenames of its attachments, and its approval-history rows (in insertion
order). -/
structure DocState where
  doc : Document
  attachments : List String
  history : List HistoryRow
deriving DecidableEq, Repr

/-- Outcome of a workflow route: `ok` (success flash), `stateError`
(warning flash and redirect, no mutation), or `typeError` (a Python
`TypeError` escaping from `ApprovalHistory(**kwargs)` when the keyword
is not a column; nothing is committed). -/
inductive RouteOutcome
  | ok
  | stateError
  | typeError
deriving DecidableEq, Repr

/-- The `action` choices of `ApprovalForm` (`src/forms/__init__.py`):
`('approve', 'Approve')` or `('reject', 'Reject')`. -/
inductive ApprovalAction
  | approve
  | reject
deriving DecidableEq, Repr

/-- The six document-association foreign-key column names of the
`ApprovalHistory` model (`src/models/__init__.py` lines 399-405). -/
def approvalHistoryDocColumns : List String :=
  ["nfa_id", "work_order_id", "cost_contract_id", "revenue_contract_id",
   "agreement_id", "statutory_document_id"]

/-- Python `str.lower()` restricted to its per-character action, which
coincides with it on the ASCII strings this code applies it to (module
names and titles). -/
def pyLower (s : String) : String :=
  String.mk (s.data.map Char.toLower)

/-- The keyword built by `WorkflowEngine.approve_document` /
`reject_document` in `src/utils/__init__.py`:
`f'{module_name.lower()}_id'`. -/
def fkKeyword (module_name : String) : String :=
  pyLower module_name ++ "_id"

/-- Model of `WorkflowEngine.approve_document` (`src/utils/__init__.py` 115-131):
builds an `ApprovalHistory(action='Approved', approved_by_id=..,
comments=.., **{f'{module_name.lower()}_id': id})`, sets
`document_model.status = 'Approved'` and commits.  When the keyword is
not an `ApprovalHistory` column the constructor raises `TypeError`
before any mutation, so the state is returned unchanged with
`typeError`. -/
def approve_document (s : DocState) (u : AUser) (module_name : String)
    (comments : String) : DocState × RouteOutcome :=
  if fkKeyword module_name ∈ approvalHistoryDocColumns then
    ({ s with
        doc := { s.doc with status := .Approved },
        history := s.history ++
          [{ action := "Approved", approved_by_id := u.id,
             comments := some comments, doc_fk := fkKeyword module_name,
             doc_id := s.doc.id }] }, .ok)
  else
    (s, .typeError)

/-- Model of `WorkflowEngine.reject_document` (`src/utils/__init__.py` 133-150):
same keyword construction; on success sets `status = 'Rejected'` and
`rejected_remarks = remarks`, and appends one row with
`action='Rejected'`, `comments=remarks`. -/
def reject_document (s : DocState) (u : AUser) (module_name : String)
    (remarks : String) : DocState × RouteOutcome :=
  if fkKeyword module_name ∈ approvalHistoryDocColumns then
    ({ s with
        doc := { s.doc with
                 status := .Rejected,
                 rejected_remarks := some remarks },
        history := s.history ++
          [{ action := "Rejected", approved_by_id := u.id,
             comments := some remarks, doc_fk := fkKeyword module_name,
             doc_id := s.doc.id }] }, .ok)
  else
    (s, .typeError)

/-- The shared body of the six `*_submit` routes (`nfa_submit` at
`src/routes/main.py` 558-578 and its five clones): if the status is not
Draft or Rejected, flash a warning and change nothing; otherwise set
status to Submitted and append one history row `action='Submitted'`,
`approved_by_id=current_user.id` (no comments), linked through the
type's foreign-key column `fk`.  The routes perform no ownership,
capability or attachment check. -/
def submit_route (fk : String) (actor : AUser) (s : DocState) :
    DocState × RouteOutcome :=
  if s.doc.status = .Draft ∨ s.doc.status = .Rejected then
    ({ s with
        doc := { s.doc with status := .Submitted },
        history := s.history ++
          [{ action := "Submitted", approved_by_id := actor.id,
             comments := none, doc_fk := fk, doc_id := s.doc.id }] }, .ok)
  else
    (s, .stateError)

/-- Route `nfa_submit` (`src/routes/main.py` 558). -/
def nfa_submit (actor : AUser) (s : DocState) : DocState × RouteOutcome :=
  submit_route "nfa_id" actor s

/-- Route `work_order_submit` (`src/routes/main.py` 811). -/
def work_order_submit (actor : AUser) (s : DocState) : DocState × RouteOutcome :=
  submit_route "work_order_id" actor s

/-- The shared body of the six `*_approve` routes (`nfa_approve` at
`src/routes/main.py` 600-620 and its five clones): only a Draft status
is refused ("Cannot approve a document in Draft status"); on a validated
form the route calls the workflow engine with the module name
`module_name` and the form's comments.  No role, permission or
department check is performed. -/
def approve_route (module_name : String) (actor : AUser)
    (act : ApprovalAction) (comments : String) (s : DocState) :
    DocState × RouteOutcome :=
  if s.doc.status = .Draft then
    (s, .stateError)
  else
    match act with
    | .approve => approve_document s actor module_name comments
    | .reject => reject_document s actor module_name comments

/-- Route `nfa_approve` (`src/routes/main.py` 600): engine module name 'NFA'. -/
def nfa_approve (actor : AUser) (act : ApprovalAction) (comments : String)
    (s : DocState) : DocState × RouteOutcome :=
  approve_route "NFA" actor act comments s

/-- Route `work_order_approve` (`src/routes/main.py` 939): module 'WorkOrder'. -/
def work_order_approve (actor : AUser) (act : ApprovalAction)
    (comments : String) (s : DocState) : DocState × RouteOutcome :=
  approve_route "WorkOrder" actor act comments s

/-- Route `cost_contract_approve` (`src/routes/main.py` 980): 'CostContract'. -/
def cost_contract_approve (actor : AUser) (act : ApprovalAction)
    (comments : String) (s : DocState) : DocState × RouteOutcome :=
  approve_route "CostContract" actor act comments s

/-- Route `revenue_contract_approve` (`src/routes/main.py` 1021):
'RevenueContract'. -/
def revenue_contract_approve (actor : AUser) (act : ApprovalAction)
    (comments : String) (s : DocState) : DocState × RouteOutcome :=
  approve_route "RevenueContract" actor act comments s

/-- Route `agreement_approve` (`src/routes/main.py` 1062): 'Agreement'. -/
def agreement_approve (actor : AUser) (act : ApprovalAction)
    (comments : String) (s : DocState) : DocState × RouteOutcome :=
  approve_route "Agreement" actor act comments s

/-- Route `statutory_document_approve` (`src/routes/main.py` 1103):
'StatutoryDocument'. -/
def statutory_document_approve (actor : AUser) (act : ApprovalAction)
    (comments : String) (s : DocState) : DocState × RouteOutcome :=
  approve_route "StatutoryDocument" actor act comments s

/-- The gate of `nfa_approval_detail` (`src/routes/main.py` 580-598):
the page is shown only when the current user holds the `hod` role and
the document status is Submitted; no department comparison is made. -/
def nfa_approval_detail_allowed (roles : List String) (st : Status) : Bool :=
  decide ("hod" ∈ roles) && decide (st = .Submitted)

/-- The gate of `nfa_edit` (`src/routes/main.py` 419-421): editing is
refused only when the status is Approved and the user does not hold the
`admin` role; every other combination proceeds into the edit form. -/
def nfa_edit_allowed (roles : List String) (st : Status) : Bool :=
  !(decide (st = .Approved) && !(decide ("admin" ∈ roles)))

/-- The attachment gate of `nfa_create` (`src/routes/main.py` 350-355):
`has_files = bool(files_list and files_list[0])`; creation is refused
with 'At least one attachment is required.' when no non-empty file is
posted.  `files` is the list of posted filenames. -/
def nfa_create_has_files (files : List String) : Bool :=
  match files with
  | [] => false
  | f :: _ => f ≠ ""

/-! ### Listing (`nfa_list`, `src/routes/main.py` 303-331) -/

/-- Head matching on the character lists of two strings, used for the
`ilike '%search%'` comparison: does `pat` occur as a contiguous block at
the head of `hay`? -/
def leadMatches : List Char → List Char → Bool
  | [], _ => true
  | _ :: _, [] => false
  | a :: as, b :: bs => a == b && leadMatches as bs

/-- Does `pat` occur as a contiguous block anywhere in `hay`? -/
def occursIn (pat : List Char) : List Char → Bool
  | [] => pat.isEmpty
  | b :: bs => leadMatches pat (b :: bs) || occursIn pat bs

/-- SQL `column ILIKE '%pat%'`: case-insensitive substring match, as
used by `query.filter(NFA.title.ilike(f'%{search}%'))`. -/
def ilikeContains (hay pat : String) : Bool :=
  occursIn (pyLower pat).data (pyLower hay).data

/-- The role-based filter of `nfa_list` (`src/routes/main.py` 313-322):
`admin` sees only Approved; otherwise `hod` sees Submitted/Approved of
their own department; otherwise the user sees their own documents of
their own department. -/
def nfa_role_scope (u : AUser) (d : Document) : Bool :=
  if "admin" ∈ u.roles then
    decide (d.status = .Approved)
  else if "hod" ∈ u.roles then
    (decide (d.status = .Submitted) || decide (d.status = .Approved)) &&
      decide (d.department_id = u.department_id)
  else
    decide (d.created_by_id = u.id) && decide (d.department_id = u.department_id)

/-- Model of `query.paginate(page=page, per_page=20)`: the 20-element page
`page` (1-based) of the filtered list. -/
def paginate (page : Nat) (l : List Document) : List Document :=
  (l.drop ((page - 1) * 20)).take 20

/-- Route `nfa_list` (`src/routes/main.py` 303-331): role scope, then the
optional `status` query filter (absent when the query string is empty),
then the optional `search` title filter, then pagination. -/
def nfa_list (u : AUser) (statusFilter : Option Status)
    (search : Option String) (page : Nat) (docs : List Document) :
    List Document :=
  let q1 := docs.filter (nfa_role_scope u)
  let q2 := match statusFilter with
    | none => q1
    | some st => q1.filter (fun d => decide (d.status = st))
  let q3 := match search with
    | none => q2
    | some pat => q2.filter (fun d => ilikeContains d.title pat)
  paginate page q3

/-! ### Admin user management (`src/routes/admin.py`) -/

/-- Number of active users holding the `admin` role:
`User.query.filter_by(is_active=True).join(User.roles).filter(Role.name == 'admin').count()`
(`src/routes/admin.py` 180, 203). -/
def activeAdminCount (users : List AUser) : Nat :=
  (users.filter (fun u => u.is_active && decide ("admin" ∈ u.roles))).length

/-- Outcome of an admin user-management route. `lastAdmin` is the
"Cannot deactivate/delete the only active admin user" warning;
`notFound` is the 404 of `get_or_404`. -/
inductive AdminOutcome
  | ok
  | lastAdmin
  | notFound
deriving DecidableEq, Repr

/-- Route `user_toggle_active` (`src/routes/admin.py` 169-190): when the
target user is active, holds the `admin` role (and the `admin` role row
exists, as `adminRoleExists` records) and there is at most one active
admin, the route refuses and changes nothing; otherwise it flips
`is_active`. -/
def user_toggle_active (adminRoleExists : Bool) (users : List AUser)
    (uid : Nat) : List AUser × AdminOutcome :=
  match users.find? (fun u => u.id = uid) with
  | none => (users, .notFound)
  | some u =>
    if u.is_active && (adminRoleExists && decide ("admin" ∈ u.roles)) &&
        decide (activeAdminCount users ≤ 1) then
      (users, .lastAdmin)
    else
      (users.map (fun v =>
        if v.id = uid then { v with is_active := !v.is_active } else v), .ok)

/-- Route `user_delete` (`src/routes/admin.py` 192-212): when the target holds
the `admin` role and there is at most one active admin, refuse;
otherwise delete the row. -/
def user_delete (adminRoleExists : Bool) (users : List AUser)
    (uid : Nat) : List AUser × AdminOutcome :=
  match users.find? (fun u => u.id = uid) with
  | none => (users, .notFound)
  | some u =>
    if (adminRoleExists && decide ("admin" ∈ u.roles)) &&
        decide (activeAdminCount users ≤ 1) then
      (users, .lastAdmin)
    else
      (users.filter (fun v => v.id ≠ uid), .ok)

/-- The user-mutating part of `user_edit` (`src/routes/admin.py`
120-156) on its success path: sets `is_active` from the form checkbox
and replaces the role set from the form's role list, with no
last-active-admin guard of any kind.  (The email-uniqueness check and
the name/password fields are orthogonal to the claims and omitted.) -/
def user_edit (users : List AUser) (uid : Nat) (newActive : Bool)
    (newRoles : List String) : List AUser × AdminOutcome :=
  match users.find? (fun u => u.id = uid) with
  | none => (users, .notFound)
  | some _ =>
    (users.map (fun v =>
      if v.id = uid then { v with is_active := newActive, roles := newRoles }
      else v), .ok)

/-! ### Reference numbers (`get_next_reference_number`,
`src/utils/__init__.py` 32-52) -/

/-- The keys of `module_map` in `get_next_reference_number`. -/
def validModules : List String :=
  ["NFA", "WorkOrder", "CostContract", "RevenueContract", "Agreement",
   "StatutoryDocument"]

/-- Python `f'{n:05d}'` for a natural number: decimal digits left-padded
with zeros to width 5. -/
def pad5 (n : Nat) : String :=
  let s := toString n
  String.mk (List.replicate (5 - s.length) '0') ++ s

/-- Model of `get_next_reference_number(module)` (`src/utils/__init__.py`
32-52): `None` for an unknown module; otherwise
`f'{module}-{date_str}-{count:05d}'` with `count = model.query.count() + 1`,
the current row count of the module's table plus one.  `rowCount` gives
the current row count per module and `date_str` the `%Y%m` timestamp. -/
def get_next_reference_number (rowCount : String → Nat) (date_str : String)
    (module : String) : Option String :=
  if module ∈ validModules then
    some (module ++ "-" ++ date_str ++ "-" ++ pad5 (rowCount module + 1))
  else
    none

/-- One operation on the NFA table for the reference-number trace model:
create a document (reference number auto-generated), or delete the
document at index `i`. -/
inductive RefOp
  | create
  | deleteAt (i : Nat)
deriving DecidableEq, Repr

/-- Creation with an auto-generated reference number against the
`unique=True` column constraint of `reference_number`
(`src/models/__init__.py` 191): the generated number is computed from
the current row count; if it collides with a stored one the INSERT
fails (IntegrityError) and the table is unchanged, otherwise the row is
added. -/
def refCreate (date_str : String) (rows : List String) : List String :=
  match get_next_reference_number (fun _ => rows.length) date_str "NFA" with
  | none => rows
  | some r => if r ∈ rows then rows else rows ++ [r]

/-- Apply one `RefOp` to the stored reference numbers. -/
def refStep (date_str : String) (rows : List String) : RefOp → List String
  | .create => refCreate date_str rows
  | .deleteAt i => rows.eraseIdx i

/-- Run a sequence of create/delete operations from an empty table. -/
def refRun (date_str : String) (ops : List RefOp) : List String :=
  ops.foldl (refStep date_str) []

/-! ### Concrete fixtures used by witnesses and counterexamples -/

/-- A concrete NFA document in a given status, owned by user 1,
department 3. -/
def doc0 (st : Status) : Document :=
  { id := 7, reference_number := "NFA-202501-00001", title := "Budget X",
    status := st, created_by_id := 1, department_id := some 3,
    rejected_remarks := none }

/-- A concrete document state: `doc0 st` with no attachments and empty
history. -/
def dstate (st : Status) : DocState :=
  { doc := doc0 st, attachments := [], history := [] }

/-- The document owner: employee in department 3. -/
def alice : AUser :=
  { id := 1, username := "alice", is_active := true, roles := ["emp"],
    department_id := some 3 }

/-- A user with no roles at all, in a different department (9), not the
owner of `doc0`. -/
def bob : AUser :=
  { id := 2, username := "bob", is_active := true, roles := [],
    department_id := some 9 }

/-- A head of department for department 3. -/
def hodUser : AUser :=
  { id := 3, username := "heidi", is_active := true, roles := ["hod"],
    department_id := some 3 }

/-- The sole active admin user. -/
def soleAdmin : AUser :=
  { id := 1, username := "root", is_active := true, roles := ["admin"],
    department_id := none }

/-- An ordinary active employee user. -/
def staff : AUser :=
  { id := 2, username := "sam", is_active := true, roles := ["emp"],
    department_id := some 3 }

/-- A user table whose only active admin is `soleAdmin`. -/
def usersLastAdmin : List AUser := [soleAdmin, staff]

/-- A concrete document list for exercising `nfa_list`: one Submitted
document of department 3, one Draft, one Approved of department 9. -/
def docsW : List Document :=
  [doc0 .Submitted, doc0 .Draft,
   { doc0 .Approved with id := 8, department_id := some 9 }]

/-! ### Helper evaluation lemmas -/

/-- Unfolding of `approve_document` when the generated keyword is a real
`ApprovalHistory` column. -/
theorem approve_document_eq_of_mem (m : String)
    (hm : fkKeyword m ∈ approvalHistoryDocColumns) (s : DocState)
    (u : AUser) (c : String) :
    approve_document s u m c =
      ({ s with
          doc := { s.doc with status := .Approved },
          history := s.history ++
            [{ action := "Approved", approved_by_id := u.id,
               comments := some c, doc_fk := fkKeyword m,
               doc_id := s.doc.id }] }, .ok) := by
  unfold approve_document
  rw [if_pos hm]

/-- Unfolding of `approve_document` when the generated keyword is not a
column: `TypeError`, state unchanged. -/
theorem approve_document_eq_of_not_mem (m : String)
    (hm : fkKeyword m ∉ approvalHistoryDocColumns) (s : DocState)
    (u : AUser) (c : String) :
    approve_document s u m c = (s, .typeError) := by
  unfold approve_document
  rw [if_neg hm]

/-- Unfolding of `reject_document` when the generated keyword is a real
column. -/
theorem reject_document_eq_of_mem (m : String)
    (hm : fkKeyword m ∈ approvalHistoryDocColumns) (s : DocState)
    (u : AUser) (c : String) :
    reject_document s u m c =
      ({ s with
          doc := { s.doc with
                   status := .Rejected,
                   rejected_remarks := some c },
          history := s.history ++
            [{ action := "Rejected", approved_by_id := u.id,
               comments := some c, doc_fk := fkKeyword m,
               doc_id := s.doc.id }] }, .ok) := by
  unfold reject_document
  rw [if_pos hm]

/-- Unfolding of `reject_document` when the generated keyword is not a
column. -/
theorem reject_document_eq_of_not_mem (m : String)
    (hm : fkKeyword m ∉ approvalHistoryDocColumns) (s : DocState)
    (u : AUser) (c : String) :
    reject_document s u m c = (s, .typeError) := by
  unfold reject_document
  rw [if_neg hm]

/-- An approve route refuses a Draft document and changes nothing. -/
theorem approve_route_eq_of_draft (m : String) (actor : AUser)
    (act : ApprovalAction) (c : String) (s : DocState)
    (h : s.doc.status = .Draft) :
    approve_route m actor act c s = (s, .stateError) := by
  unfold approve_route
  rw [if_pos h]

/-- On a non-Draft document an approve route goes straight to the
engine. -/
theorem approve_route_eq_of_not_draft (m : String) (actor : AUser)
    (act : ApprovalAction) (c : String) (s : DocState)
    (h : ¬s.doc.status = .Draft) :
    approve_route m actor act c s =
      (match act with
       | .approve => approve_document s actor m c
       | .reject => reject_document s actor m c) := by
  unfold approve_route
  rw [if_neg h]

/-- An approve route for a module whose keyword is invalid raises
`TypeError` on every non-Draft document, leaving the state unchanged. -/
theorem approve_route_eq_typeError (m : String)
    (hm : fkKeyword m ∉ approvalHistoryDocColumns) (actor : AUser)
    (act : ApprovalAction) (c : String) (s : DocState)
    (h : ¬s.doc.status = .Draft) :
    approve_route m actor act c s = (s, .typeError) := by
  rw [approve_route_eq_of_not_draft m actor act c s h]
  cases act
  · exact approve_document_eq_of_not_mem m hm s actor c
  · exact reject_document_eq_of_not_mem m hm s actor c

/-- Unfolding of a submit route on a Draft or Rejected document. -/
theorem submit_route_eq_ok (fk : String) (actor : AUser) (s : DocState)
    (h : s.doc.status = .Draft ∨ s.doc.status = .Rejected) :
    submit_route fk actor s =
      ({ s with
          doc := { s.doc with status := .Submitted },
          history := s.history ++
            [{ action := "Submitted", approved_by_id := actor.id,
               comments := none, doc_fk := fk, doc_id := s.doc.id }] },
       .ok) := by
  unfold submit_route
  rw [if_pos h]

/-- Unfolding of a submit route on any other status: warning, state
unchanged. -/
theorem submit_route_eq_blocked (fk : String) (actor : AUser)
    (s : DocState)
    (h : ¬(s.doc.status = .Draft ∨ s.doc.status = .Rejected)) :
    submit_route fk actor s = (s, .stateError) := by
  unfold submit_route
  rw [if_neg h]

/-- On a non-Draft document, choosing `approve` runs the engine's
approve. -/
theorem approve_route_approve_eq (m : String) (actor : AUser) (c : String)
    (s : DocState) (h : ¬s.doc.status = .Draft) :
    approve_route m actor .approve c s = approve_document s actor m c := by
  unfold approve_route
  rw [if_neg h]

/-- On a non-Draft document, choosing `reject` runs the engine's
reject. -/
theorem approve_route_reject_eq (m : String) (actor : AUser) (c : String)
    (s : DocState) (h : ¬s.doc.status = .Draft) :
    approve_route m actor .reject c s = reject_document s actor m c := by
  unfold approve_route
  rw [if_neg h]

/-- Full evaluation of `nfa_approve` with action `approve` on a
non-Draft document: status becomes Approved and one `Approved` row is
appended through the `nfa_id` column. -/
theorem nfa_approve_eq (actor : AUser) (c : String) (s : DocState)
    (h : ¬s.doc.status = .Draft) :
    nfa_approve actor .approve c s =
      ({ s with
          doc := { s.doc with status := .Approved },
          history := s.history ++
            [{ action := "Approved", approved_by_id := actor.id,
               comments := some c, doc_fk := "nfa_id",
               doc_id := s.doc.id }] }, .ok) := by
  unfold nfa_approve
  rw [approve_route_approve_eq "NFA" actor c s h]
  have e := approve_document_eq_of_mem "NFA" (by decide) s actor c
  rw [show fkKeyword "NFA" = "nfa_id" from by decide] at e
  exact e

/-- Full evaluation of `nfa_approve` with action `reject` on a non-Draft
document: status becomes Rejected, `rejected_remarks` is overwritten
with the comments, and one `Rejected` row is appended. -/
theorem nfa_reject_eq (actor : AUser) (c : String) (s : DocState)
    (h : ¬s.doc.status = .Draft) :
    nfa_approve actor .reject c s =
      ({ s with
          doc := { s.doc with
                   status := .Rejected,
                   rejected_remarks := some c },
          history := s.history ++
            [{ action := "Rejected", approved_by_id := actor.id,
               comments := some c, doc_fk := "nfa_id",
               doc_id := s.doc.id }] }, .ok) := by
  unfold nfa_approve
  rw [approve_route_reject_eq "NFA" actor c s h]
  have e := reject_document_eq_of_mem "NFA" (by decide) s actor c
  rw [show fkKeyword "NFA" = "nfa_id" from by decide] at e
  exact e

/-! ### Claim C1 -/

/-- C1 counterexample: the claim states that approving a document from
any state with no defined edge — in particular Rejected — is reported
as a state error and leaves the document unchanged.  In the code,
approving the concrete Rejected document succeeds: the outcome is `ok`,
the status becomes Approved and a history row is appended. -/
theorem approve_rejected_succeeds_cex :
    (dstate .Rejected).doc.status = .Rejected ∧
    (nfa_approve bob .approve "ok" (dstate .Rejected)).2 = .ok ∧
    (nfa_approve bob .approve "ok" (dstate .Rejected)).1.doc.status = .Approved ∧
    (nfa_approve bob .approve "ok" (dstate .Rejected)).1.history.length = 1 := by
  decide

/-- C1 (amended): approving a Submitted document sets status Approved
and appends exactly one `Approved` history row, and approving a Draft
document is refused with a state warning and leaves the document
unchanged; but Draft is the only refused state — from Approved or
Rejected the approve operation also succeeds, since the route checks
only `status == 'Draft'`. -/
theorem approve_blocks_only_draft (s : DocState) (actor : AUser)
    (c : String) :
    (¬s.doc.status = .Draft →
      nfa_approve actor .approve c s =
        ({ s with
            doc := { s.doc with status := .Approved },
            history := s.history ++
              [{ action := "Approved", approved_by_id := actor.id,
                 comments := some c, doc_fk := "nfa_id",
                 doc_id := s.doc.id }] }, .ok)) ∧
    (s.doc.status = .Draft →
      nfa_approve actor .approve c s = (s, .stateError)) := by
  constructor
  · intro h
    exact nfa_approve_eq actor c s h
  · intro h
    unfold nfa_approve
    exact approve_route_eq_of_draft "NFA" actor .approve c s h

/-- C1 witness: the amended theorem applied to the concrete Submitted
and Draft documents. -/
theorem approve_blocks_only_draft_witness :
    nfa_approve bob .approve "ok" (dstate .Submitted) =
      ({ dstate .Submitted with
          doc := { (dstate .Submitted).doc with status := .Approved },
          history := (dstate .Submitted).history ++
            [{ action := "Approved", approved_by_id := bob.id,
               comments := some "ok", doc_fk := "nfa_id",
               doc_id := (dstate .Submitted).doc.id }] }, .ok) ∧
    nfa_approve bob .approve "ok" (dstate .Draft) =
      (dstate .Draft, .stateError) :=
  ⟨(approve_blocks_only_draft (dstate .Submitted) bob "ok").1 (by decide),
   (approve_blocks_only_draft (dstate .Draft) bob "ok").2 rfl⟩

/-! ### Claim C2 -/

/-- C2 counterexample: the claim states that submitting a Draft document
with zero attachments fails with `AttachmentRequiredError` and leaves
the document unchanged.  In the code, submitting the concrete Draft
document with no attachments succeeds, sets status Submitted and
appends a history row. -/
theorem submit_no_attachments_succeeds_cex :
    (dstate .Draft).attachments = [] ∧
    (nfa_submit alice (dstate .Draft)).2 = .ok ∧
    (nfa_submit alice (dstate .Draft)).1.doc.status = .Submitted ∧
    (nfa_submit alice (dstate .Draft)).1.history.length = 1 := by
  decide

/-- C2 (amended): submitting a Draft or Rejected document succeeds
regardless of its attachment count — in particular with zero
attachments — setting status Submitted and appending exactly one
`Submitted` history row; the at-least-one-attachment rule is enforced
only by the create (and edit) routes, as `nfa_create_has_files [] =
false` shows for creation. -/
theorem submit_ignores_attachments (actor : AUser) (s : DocState)
    (h : s.doc.status = .Draft ∨ s.doc.status = .Rejected) :
    (nfa_submit actor s).2 = .ok ∧
    (nfa_submit actor s).1.doc.status = .Submitted ∧
    (nfa_submit actor s).1.attachments = s.attachments ∧
    (nfa_submit actor s).1.history =
      s.history ++
        [{ action := "Submitted", approved_by_id := actor.id,
           comments := none, doc_fk := "nfa_id", doc_id := s.doc.id }] ∧
    nfa_create_has_files [] = false := by
  unfold nfa_submit
  rw [submit_route_eq_ok "nfa_id" actor s h]
  exact ⟨rfl, rfl, rfl, rfl, rfl⟩

/-- C2 witness: the amended theorem applied to the concrete Rejected
document with no attachments. -/
theorem submit_ignores_attachments_witness :
    (nfa_submit alice (dstate .Rejected)).2 = .ok ∧
    (nfa_submit alice (dstate .Rejected)).1.doc.status = .Submitted ∧
    (nfa_submit alice (dstate .Rejected)).1.attachments = [] :=
  ⟨(submit_ignores_attachments alice (dstate .Rejected) (Or.inr rfl)).1,
   (submit_ignores_attachments alice (dstate .Rejected) (Or.inr rfl)).2.1,
   (submit_ignores_attachments alice (dstate .Rejected) (Or.inr rfl)).2.2.1⟩

/-! ### Claim C3 -/

/-- C3 counterexample: the claim states that approve and reject on a
Submitted document fail with `ForbiddenError` for an actor without the
hod/admin role for the document's department.  In the code, the user
`bob` — no roles at all, department 9, while the document belongs to
department 3 — both approves and rejects the document successfully. -/
theorem approve_without_role_succeeds_cex :
    bob.roles = [] ∧
    ¬bob.department_id = (dstate .Submitted).doc.department_id ∧
    (nfa_approve bob .approve "ok" (dstate .Submitted)).2 = .ok ∧
    (nfa_approve bob .approve "ok" (dstate .Submitted)).1.doc.status = .Approved ∧
    (nfa_approve bob .reject "no" (dstate .Submitted)).2 = .ok ∧
    (nfa_approve bob .reject "no" (dstate .Submitted)).1.doc.status = .Rejected := by
  decide

/-- C3 (amended): the approve route performs no role, permission or
department check: on a Submitted document both approve and reject
succeed for every authenticated actor.  Only the separate read-only
approval-detail page is gated, and its gate requires exactly the `hod`
role with no department comparison. -/
theorem approve_route_has_no_role_guard (actor : AUser)
    (act : ApprovalAction) (c : String) (s : DocState)
    (h : s.doc.status = .Submitted) :
    (nfa_approve actor act c s).2 = .ok ∧
    (nfa_approve actor act c s).1.doc.status =
      (match act with
       | .approve => Status.Approved
       | .reject => Status.Rejected) ∧
    (∀ roles : List String,
      nfa_approval_detail_allowed roles s.doc.status =
        decide ("hod" ∈ roles)) := by
  have hnd : ¬s.doc.status = .Draft := by
    rw [h]
    intro hc
    cases hc
  refine ⟨?_, ?_, ?_⟩
  · cases act
    · rw [nfa_approve_eq actor c s hnd]
    · rw [nfa_reject_eq actor c s hnd]
  · cases act
    · rw [nfa_approve_eq actor c s hnd]
    · rw [nfa_reject_eq actor c s hnd]
  · intro roles
    unfold nfa_approval_detail_allowed
    rw [h]
    rw [show decide (Status.Submitted = Status.Submitted) = true from by decide]
    rw [Bool.and_true]

/-- C3 witness: the amended theorem applied to the roleless user `bob`
and the concrete Submitted document. -/
theorem approve_route_has_no_role_guard_witness :
    (nfa_approve bob .reject "no" (dstate .Submitted)).2 = .ok ∧
    (nfa_approve bob .reject "no" (dstate .Submitted)).1.doc.status = .Rejected ∧
    nfa_approval_detail_allowed bob.roles (dstate .Submitted).doc.status = false :=
  ⟨(approve_route_has_no_role_guard bob .reject "no" (dstate .Submitted) rfl).1,
   (approve_route_has_no_role_guard bob .reject "no" (dstate .Submitted) rfl).2.1,
   by
     rw [(approve_route_has_no_role_guard bob .reject "no" (dstate .Submitted)
       rfl).2.2 bob.roles]
     decide⟩

/-! ### Claim C4 -/

/-- C4 counterexample: the claim states that a submit attempt by an
actor who is neither the document's owner nor a holder of the edit-all
capability fails and leaves the document unchanged.  In the code, the
user `bob` — not the owner (the document was created by user 1) and
holding no roles, hence no capability — submits the Draft document
successfully. -/
theorem submit_by_non_owner_succeeds_cex :
    ¬bob.id = (dstate .Draft).doc.created_by_id ∧
    bob.roles = [] ∧
    (nfa_submit bob (dstate .Draft)).2 = .ok ∧
    (nfa_submit bob (dstate .Draft)).1.doc.status = .Submitted := by
  decide

/-- C4 (amended): the submit route checks only the document status:
for every authenticated actor — owner or not, with or without any
capability — submit succeeds exactly when the status is Draft or
Rejected, and is refused with a warning, leaving the document unchanged,
otherwise. -/
theorem submit_has_no_ownership_guard (actor : AUser) (s : DocState) :
    ((s.doc.status = .Draft ∨ s.doc.status = .Rejected) →
      (nfa_submit actor s).2 = .ok ∧
      (nfa_submit actor s).1.doc.status = .Submitted) ∧
    (¬(s.doc.status = .Draft ∨ s.doc.status = .Rejected) →
      nfa_submit actor s = (s, .stateError)) := by
  constructor
  · intro h
    unfold nfa_submit
    rw [submit_route_eq_ok "nfa_id" actor s h]
    exact ⟨rfl, rfl⟩
  · intro h
    unfold nfa_submit
    exact submit_route_eq_blocked "nfa_id" actor s h

/-- C4 witness: the amended theorem applied to the non-owner `bob` on
the Draft document (succeeds) and on the Approved document (refused,
unchanged). -/
theorem submit_has_no_ownership_guard_witness :
    (nfa_submit bob (dstate .Draft)).2 = .ok ∧
    nfa_submit bob (dstate .Approved) = (dstate .Approved, .stateError) :=
  ⟨((submit_has_no_ownership_guard bob (dstate .Draft)).1 (Or.inl rfl)).1,
   (submit_has_no_ownership_guard bob (dstate .Approved)).2 (by decide)⟩

/-! ### Claim C5 -/

/-- C5: rejecting a Submitted document sets status Rejected, overwrites
`rejected_remarks` with the supplied comments, appends exactly one
`Rejected` history row carrying those comments, and a subsequent submit
(by any actor) transitions the document from Rejected back to
Submitted. -/
theorem reject_then_resubmit (s : DocState) (actor : AUser) (c : String)
    (h : s.doc.status = .Submitted) :
    (nfa_approve actor .reject c s).2 = .ok ∧
    (nfa_approve actor .reject c s).1.doc.status = .Rejected ∧
    (nfa_approve actor .reject c s).1.doc.rejected_remarks = some c ∧
    (nfa_approve actor .reject c s).1.history =
      s.history ++
        [{ action := "Rejected", approved_by_id := actor.id,
           comments := some c, doc_fk := "nfa_id", doc_id := s.doc.id }] ∧
    (∀ actor2 : AUser,
      (nfa_submit actor2 (nfa_approve actor .reject c s).1).2 = .ok ∧
      (nfa_submit actor2 (nfa_approve actor .reject c s).1).1.doc.status =
        .Submitted) := by
  have hnd : ¬s.doc.status = .Draft := by
    rw [h]
    intro hc
    cases hc
  rw [nfa_reject_eq actor c s hnd]
  refine ⟨rfl, rfl, rfl, rfl, ?_⟩
  intro actor2
  unfold nfa_submit
  rw [submit_route_eq_ok "nfa_id" actor2 _ (Or.inr rfl)]
  exact ⟨rfl, rfl⟩

/-- C5 witness: the theorem applied to the concrete Submitted document,
rejected by the department head with remarks, then resubmitted by its
owner. -/
theorem reject_then_resubmit_witness :
    (nfa_approve hodUser .reject "needs data" (dstate .Submitted)).1.doc.rejected_remarks =
      some "needs data" ∧
    (nfa_submit alice
      (nfa_approve hodUser .reject "needs data" (dstate .Submitted)).1).1.doc.status =
      .Submitted :=
  ⟨(reject_then_resubmit (dstate .Submitted) hodUser "needs data" rfl).2.2.1,
   ((reject_then_resubmit (dstate .Submitted) hodUser "needs data" rfl).2.2.2.2
     alice).2⟩

/-! ### Claim C6 -/

/-- C6 counterexample: the claim states that a non-admin actor's update
of a Submitted document fails with `ImmutableDocumentError`.  In the
code, the edit gate admits a plain employee straight into the edit form
of a Submitted document. -/
theorem edit_submitted_allowed_cex :
    ("admin" : String) ∉ (["emp"] : List String) ∧
    nfa_edit_allowed ["emp"] .Submitted = true := by
  decide

/-- C6 (amended): the edit gate refuses an update exactly when the
document is Approved and the actor does not hold the admin role; for a
non-admin actor, updates in Draft, Submitted and Rejected are all
allowed (only Approved is locked), and an admin actor may update in any
status. -/
theorem edit_gate_blocks_only_approved (roles : List String) (st : Status) :
    nfa_edit_allowed roles st = true ↔
      (¬st = .Approved ∨ "admin" ∈ roles) := by
  unfold nfa_edit_allowed
  cases st <;> simp

/-! ### Claim C7 -/

/-- C7: the claim asserts that deactivating or deleting the last
remaining active admin always fails with the last-admin error, so every
reachable state keeps an active admin.  On the concrete one-admin user
table, the dedicated toggle and delete routes do refuse — but the
user-edit route applies the form's `is_active` value with no such
guard, deactivating the last active admin and leaving zero active
admins, contradicting the claimed invariant. -/
theorem last_admin_guard_gap :
    activeAdminCount usersLastAdmin = 1 ∧
    user_toggle_active true usersLastAdmin 1 = (usersLastAdmin, .lastAdmin) ∧
    user_delete true usersLastAdmin 1 = (usersLastAdmin, .lastAdmin) ∧
    (user_edit usersLastAdmin 1 false ["admin"]).2 = .ok ∧
    activeAdminCount (user_edit usersLastAdmin 1 false ["admin"]).1 = 0 := by
  decide

/-! ### Claim C8 -/

/-- C8 counterexample: the claim states that the generated sequence is
monotonically increasing so that generated reference numbers stay
unique across interleaved creations and deletions.  After the concrete
trace create, create, delete-first, the table holds `NFA-202501-00002`
and the generator's next output is again `NFA-202501-00002` — a
generated number equal to an existing document's. -/
theorem reference_reuse_after_delete_cex :
    refRun "202501" [.create, .create, .deleteAt 0] = ["NFA-202501-00002"] ∧
    get_next_reference_number
      (fun _ => (refRun "202501" [.create, .create, .deleteAt 0]).length)
      "202501" "NFA" = some "NFA-202501-00002" ∧
    "NFA-202501-00002" ∈ refRun "202501" [.create, .create, .deleteAt 0] := by
  decide

/-- One create/delete step keeps the stored reference numbers
pairwise distinct: a delete shrinks the table, and a create either
inserts a fresh number or is rejected by the unique constraint. -/
theorem refStep_nodup (ym : String) (rows : List String) (op : RefOp)
    (h : rows.Nodup) : (refStep ym rows op).Nodup := by
  cases op with
  | create =>
    simp only [refStep]
    unfold refCreate
    cases hg : get_next_reference_number (fun _ => rows.length) ym "NFA" with
    | none => exact h
    | some r =>
      show (if r ∈ rows then rows else rows ++ [r]).Nodup
      by_cases hr : r ∈ rows
      · rw [if_pos hr]
        exact h
      · rw [if_neg hr]
        refine List.nodup_append.mpr ⟨h, List.nodup_singleton r, ?_⟩
        intro a ha hb
        exact hr (List.mem_singleton.mp hb ▸ ha)
  | deleteAt i =>
    simp only [refStep]
    exact h.sublist (List.eraseIdx_sublist rows i)

/-- C8 (amended): the sequence part of a generated reference number is
the module's current row count plus one — not a monotonic counter:
after a deletion the generator can emit a number already borne by an
existing document of the same type (see the counterexample), and such
an insert is rejected by the `unique=True` column constraint.  It is
that constraint, not the generator, which keeps the stored reference
numbers of a document type pairwise distinct in every reachable table
state, as proved here. -/
theorem stored_reference_numbers_nodup (ym : String) (ops : List RefOp) :
    (refRun ym ops).Nodup := by
  unfold refRun
  have hgen : ∀ rows : List String, rows.Nodup →
      (ops.foldl (refStep ym) rows).Nodup := by
    induction ops with
    | nil =>
      intro rows h
      exact h
    | cons op rest ih =>
      intro rows h
      rw [List.foldl_cons]
      exact ih _ (refStep_nodup ym rows op h)
  exact hgen [] List.nodup_nil

/-! ### Claim C9 -/

/-- C9: the listing is exactly the role scope: an admin's list contains
only Approved documents; an hod's list (when the actor is not also an
admin) contains only Submitted or Approved documents of the actor's own
department, hence never a Draft; any other actor's list contains only
documents they created in their own department.  With no status or
search filter and one page of at most 20 documents the listing is
exactly the role-scope filter of the table. -/
theorem nfa_list_role_scope_sound (u : AUser) (f : Option Status)
    (q : Option String) (p : Nat) (docs : List Document) :
    (∀ d ∈ nfa_list u f q p docs,
      ("admin" ∈ u.roles → d.status = .Approved) ∧
      ("admin" ∉ u.roles → "hod" ∈ u.roles →
        (d.status = .Submitted ∨ d.status = .Approved) ∧
        ¬d.status = .Draft ∧ d.department_id = u.department_id) ∧
      ("admin" ∉ u.roles → "hod" ∉ u.roles →
        d.created_by_id = u.id ∧ d.department_id = u.department_id)) ∧
    (docs.length ≤ 20 →
      nfa_list u none none 1 docs = docs.filter (nfa_role_scope u)) := by
  constructor
  · intro d hd
    have hscope : nfa_role_scope u d = true := by
      simp only [nfa_list, paginate] at hd
      have h2 := List.mem_of_mem_drop (List.mem_of_mem_take hd)
      have h3 : d ∈ (match f with
          | none => docs.filter (nfa_role_scope u)
          | some st => (docs.filter (nfa_role_scope u)).filter
              (fun d => decide (d.status = st))) := by
        cases q with
        | none => exact h2
        | some pat => exact (List.mem_filter.mp h2).1
      have h4 : d ∈ docs.filter (nfa_role_scope u) := by
        cases f with
        | none => exact h3
        | some st => exact (List.mem_filter.mp h3).1
      exact (List.mem_filter.mp h4).2
    refine ⟨fun ha => ?_, fun hna hh => ?_, fun hna hnh => ?_⟩
    · unfold nfa_role_scope at hscope
      rw [if_pos ha] at hscope
      exact of_decide_eq_true hscope
    · unfold nfa_role_scope at hscope
      rw [if_neg hna, if_pos hh, Bool.and_eq_true, Bool.or_eq_true] at hscope
      obtain ⟨hst, hdep⟩ := hscope
      refine ⟨?_, ?_, of_decide_eq_true hdep⟩
      · rcases hst with h1 | h1
        · exact Or.inl (of_decide_eq_true h1)
        · exact Or.inr (of_decide_eq_true h1)
      · rcases hst with h1 | h1
        · rw [of_decide_eq_true h1]
          intro hc
          cases hc
        · rw [of_decide_eq_true h1]
          intro hc
          cases hc
    · unfold nfa_role_scope at hscope
      rw [if_neg hna, if_neg hnh, Bool.and_eq_true] at hscope
      obtain ⟨h1, h2⟩ := hscope
      exact ⟨of_decide_eq_true h1, of_decide_eq_true h2⟩
  · intro hlen
    simp only [nfa_list, paginate]
    rw [show (1 - 1) * 20 = 0 from rfl, List.drop_zero]
    exact List.take_of_length_le
      (le_trans (List.length_filter_le _ _) hlen)

/-- C9 witness: the theorem applied to the head of department 3 and the
concrete three-document table: the listing is exactly the one Submitted
department-3 document, and that document satisfies the hod scope. -/
theorem nfa_list_role_scope_sound_witness :
    nfa_list hodUser none none 1 docsW = [doc0 .Submitted] ∧
    ((doc0 .Submitted).status = .Submitted ∨
      (doc0 .Submitted).status = .Approved) ∧
    ¬(doc0 .Submitted).status = .Draft ∧
    (doc0 .Submitted).department_id = hodUser.department_id := by
  refine ⟨?_, ?_⟩
  · rw [(nfa_list_role_scope_sound hodUser none none 1 docsW).2 (by decide)]
    decide
  · exact ((nfa_list_role_scope_sound hodUser none none 1 docsW).1
      (doc0 .Submitted) (by decide)).2.1 (by decide) (by decide)

/-! ### Claim C10 -/

/-- C10: the workflow engine builds the `ApprovalHistory` foreign-key
keyword as `module_name.lower() + '_id'`, which names a real column
only for the module names 'NFA' and 'Agreement'; for 'WorkOrder',
'CostContract', 'RevenueContract' and 'StatutoryDocument' — exactly the
names the corresponding approve routes pass — the keyword (e.g.
`workorder_id` instead of `work_order_id`) is not an `ApprovalHistory`
column, so constructing the history row raises a `TypeError` and the
approval or rejection cannot complete, while the NFA and Agreement
routes succeed. -/
theorem workflow_fk_keyword_mismatch (s : DocState) (u : AUser)
    (c : String) (act : ApprovalAction) (h : ¬s.doc.status = .Draft) :
    (fkKeyword "NFA" = "nfa_id" ∧
      fkKeyword "Agreement" = "agreement_id" ∧
      fkKeyword "NFA" ∈ approvalHistoryDocColumns ∧
      fkKeyword "Agreement" ∈ approvalHistoryDocColumns) ∧
    (fkKeyword "WorkOrder" = "workorder_id" ∧
      fkKeyword "WorkOrder" ∉ approvalHistoryDocColumns ∧
      fkKeyword "CostContract" ∉ approvalHistoryDocColumns ∧
      fkKeyword "RevenueContract" ∉ approvalHistoryDocColumns ∧
      fkKeyword "StatutoryDocument" ∉ approvalHistoryDocColumns) ∧
    (work_order_approve u act c s = (s, .typeError) ∧
      cost_contract_approve u act c s = (s, .typeError) ∧
      revenue_contract_approve u act c s = (s, .typeError) ∧
      statutory_document_approve u act c s = (s, .typeError)) ∧
    ((nfa_approve u act c s).2 = .ok ∧
      (agreement_approve u act c s).2 = .ok) := by
  refine ⟨by decide, by decide, ⟨?_, ?_, ?_, ?_⟩, ?_, ?_⟩
  · unfold work_order_approve
    exact approve_route_eq_typeError "WorkOrder" (by decide) u act c s h
  · unfold cost_contract_approve
    exact approve_route_eq_typeError "CostContract" (by decide) u act c s h
  · unfold revenue_contract_approve
    exact approve_route_eq_typeError "RevenueContract" (by decide) u act c s h
  · unfold statutory_document_approve
    exact approve_route_eq_typeError "StatutoryDocument" (by decide) u act c s h
  · cases act
    · rw [nfa_approve_eq u c s h]
    · rw [nfa_reject_eq u c s h]
  · unfold agreement_approve
    cases act
    · rw [approve_route_approve_eq "Agreement" u c s h,
        approve_document_eq_of_mem "Agreement" (by decide) s u c]
    · rw [approve_route_reject_eq "Agreement" u c s h,
        reject_document_eq_of_mem "Agreement" (by decide) s u c]

/-- C10 witness: the theorem applied to the concrete Submitted document:
the work-order approval raises the type error with the state unchanged,
while the NFA approval completes. -/
theorem workflow_fk_keyword_mismatch_witness :
    work_order_approve bob .approve "ok" (dstate .Submitted) =
      (dstate .Submitted, .typeError) ∧
    (nfa_approve bob .approve "ok" (dstate .Submitted)).2 = .ok :=
  ⟨(workflow_fk_keyword_mismatch (dstate .Submitted) bob "ok" .approve
      (by decide)).2.2.1.1,
   (workflow_fk_keyword_mismatch (dstate .Submitted) bob "ok" .approve
      (by decide)).2.2.2.1⟩

end DocApproval
